import Mathlib

/-!
Verification of the attribute-descriptor layer of the `attribs` package
(`src/attribs/base.py`, `src/attribs/attributes.py`, `src/attribs/create.py`)
against its specification.

The Python code wraps the `maya.api.OpenMaya` host library.  Host behaviour
(unit conversion factors, constructor default units) is abstracted into a
`Host` structure supplied as a parameter, so every theorem holds for every
possible host.  Python exceptions are modelled with `Option`/`Except`:
`none`/`.error` means the call raised.
-/

set_option autoImplicit false

namespace Attribs

/-- Tag for the three unit-bearing Maya numeric classes `MAngle`,
`MDistance` and `MTime`. -/
inductive UnitCls where
  | angle
  | distance
  | time
deriving DecidableEq, Repr

/-- The value of `NUMERIC_CLS` on a `NumericAttribute` subclass:
`float`, `int`, or one of the unit-bearing classes. -/
inductive NumCls where
  | flt
  | int
  | unitC (c : UnitCls)
deriving DecidableEq, Repr

/-- A value of type `MayaNumeric = Union[float, MAngle, MDistance, MTime]`
(plus Python `int`, which the descriptors also store).  A unit-bearing value
carries its class tag, its magnitude and its unit code. -/
inductive MayaNumV where
  | flt (v : ℚ)
  | intV (v : ℤ)
  | unitVal (c : UnitCls) (v : ℚ) (u : ℕ)
deriving DecidableEq, Repr

/-- The host library services the descriptors call into:
`conv c v fromU toU` is `asUnits` (the magnitude of a value `v` of class `c`
held in unit `fromU`, expressed in unit `toU`), and `ctorUnit c` is the unit
a bare constructor call `cls(v)` assigns when no unit argument is given. -/
structure Host where
  conv : UnitCls → ℚ → ℕ → ℕ → ℚ
  ctorUnit : UnitCls → ℕ

/-- Python `float(value)`: succeeds on numbers, raises `TypeError` on the
unit-bearing Maya classes (they define no `__float__`). -/
def pyFloat : MayaNumV → Option ℚ
  | .flt v => some v
  | .intV v => some (v : ℚ)
  | .unitVal _ _ _ => none

/-- Python `int(value)`: truncates a float toward zero, raises `TypeError`
on the unit-bearing Maya classes. -/
def pyInt : MayaNumV → Option ℤ
  | .flt v => some (if v < 0 then ⌈v⌉ else ⌊v⌋)
  | .intV v => some v
  | .unitVal _ _ _ => none

/-- The constructor `numeric_cls(value, *args)` called on line 343 of
`base.py` when `value` is not an instance of `numeric_cls`:
a number argument builds a fresh unit value (with the explicit unit when
one is passed, the constructor default unit otherwise); a unit-bearing
value of a different class raises `TypeError`. -/
def unitCtor (host : Host) (c : UnitCls) (args : Option ℕ) :
    MayaNumV → Option MayaNumV
  | .flt v => some (.unitVal c v (args.getD (host.ctorUnit c)))
  | .intV v => some (.unitVal c (v : ℚ) (args.getD (host.ctorUnit c)))
  | .unitVal _ _ _ => none

/-- `NumericProperty.__set__` (`base.py` lines 329-349), as a function from
the assigned value to the stored value: `none` (outer) means the setter
raised, the stored value `none` (inner) models a stored Python `None`. -/
def NumericProperty.setValue (host : Host) (numeric_cls : NumCls)
    (unit : Option ℕ) (value : Option MayaNumV) : Option (Option MayaNumV) :=
  match value with
  | none => some none
  | some v =>
    match numeric_cls with
    | .flt => (pyFloat v).map (fun q => some (.flt q))
    | .int => (pyInt v).map (fun n => some (.intV n))
    | .unitC c =>
      match v with
      | .unitVal c' mv mu =>
        if c' = c then
          -- `isinstance(value, numeric_cls)` holds
          match unit with
          | some u =>
            if mu ≠ u then
              some (some (.unitVal c (host.conv c mv mu u) u))
            else
              some (some (.unitVal c' mv mu))
          | none => some (some (.unitVal c' mv mu))
        else
          -- not an instance: `numeric_cls(value, *args)` raises TypeError
          unitCtor host c unit (.unitVal c' mv mu)
      | .flt q => (unitCtor host c unit (.flt q)).map some
      | .intV n => (unitCtor host c unit (.intV n)).map some

/-- `NumericProperty.__get__` (`base.py` lines 322-327): returns the stored
value (`None` when nothing is stored). -/
def NumericProperty.getValue (stored : Option MayaNumV) : Option MayaNumV :=
  stored

/-- C2: for a numeric attribute whose `NUMERIC_CLS` is a unit-bearing Maya
type with its unit set, assignment converts a value of that type held in a
different unit with `asUnits`, stores a value already in the attribute unit
unchanged, wraps a plain float as `NUMERIC_CLS(value, unit)`, and stores
`None` as `None`. -/
theorem numeric_property_unit_conversion (host : Host) (c : UnitCls) (u : ℕ)
    (mv q : ℚ) (mu : ℕ) (hne : mu ≠ u) :
    NumericProperty.setValue host (.unitC c) (some u)
        (some (.unitVal c mv mu)) =
      some (some (.unitVal c (host.conv c mv mu u) u)) ∧
    NumericProperty.setValue host (.unitC c) (some u)
        (some (.unitVal c mv u)) =
      some (some (.unitVal c mv u)) ∧
    NumericProperty.setValue host (.unitC c) (some u) (some (.flt q)) =
      some (some (.unitVal c q u)) ∧
    NumericProperty.setValue host (.unitC c) (some u) none = some none := by
  refine ⟨?_, ?_, ?_, ?_⟩ <;>
    simp [NumericProperty.setValue, unitCtor, hne]

/-- Witness for C2 at a concrete host and input. -/
theorem numeric_property_unit_conversion_witness :
    NumericProperty.setValue
        ⟨fun _ v _ _ => v, fun _ => 0⟩ (.unitC .angle) (some 2)
        (some (.unitVal .angle 5 1)) =
      some (some (.unitVal .angle 5 2)) := by
  have h := (numeric_property_unit_conversion ⟨fun _ v _ _ => v, fun _ => 0⟩
    .angle 2 5 0 1 (by decide)).1
  simpa using h

/-!
Host enum constants.  The precise integer codes of the OpenMaya enums are
irrelevant to every claim (only distinctness from `kInvalid = 0` is ever
used by the code); the values below follow the OpenMaya documentation.
`MFnAttribute.kNothing = 2` is documented in `base.py` lines 198-205.
-/

def OpenMaya.MFnData.kInvalid : ℕ := 0
def OpenMaya.MFnData.kString : ℕ := 4
def OpenMaya.MFnData.kNurbsCurve : ℕ := 14
def OpenMaya.MFnNumericData.kBoolean : ℕ := 1
def OpenMaya.MFnNumericData.kShort : ℕ := 4
def OpenMaya.MFnNumericData.k2Short : ℕ := 5
def OpenMaya.MFnNumericData.k3Short : ℕ := 6
def OpenMaya.MFnNumericData.kLong : ℕ := 7
def OpenMaya.MFnNumericData.k2Long : ℕ := 9
def OpenMaya.MFnNumericData.k3Long : ℕ := 10
def OpenMaya.MFnNumericData.kFloat : ℕ := 11
def OpenMaya.MFnNumericData.k2Float : ℕ := 12
def OpenMaya.MFnNumericData.k3Float : ℕ := 13
def OpenMaya.MFnNumericData.kDouble : ℕ := 14
def OpenMaya.MFnNumericData.k2Double : ℕ := 15
def OpenMaya.MFnNumericData.k3Double : ℕ := 16
def OpenMaya.MFnNumericData.k4Double : ℕ := 17
def OpenMaya.MFnUnitAttribute.kAngle : ℕ := 1
def OpenMaya.MFnUnitAttribute.kDistance : ℕ := 2
def OpenMaya.MFnUnitAttribute.kTime : ℕ := 3
def OpenMaya.MFnMatrixAttribute.kDouble : ℕ := 0
def OpenMaya.MFnMatrixAttribute.kFloat : ℕ := 1
def OpenMaya.MAngle.kRadians : ℕ := 1
def OpenMaya.MAngle.kDegrees : ℕ := 2
def OpenMaya.MDistance.kCentimeters : ℕ := 6
def OpenMaya.MFnAttribute.kNothing : ℕ := 2

/-- The per-instance fields set by `Attribute.__init__`
(`base.py` lines 150-265). -/
structure AttrCommon where
  name : String
  short_name : Option String
  affects_appearence : Bool
  affects_world_space : Bool
  cached : Bool
  channel_box : Bool
  connectable : Bool
  disconnect_behavior : ℕ
  hidden : Bool
  indeterminant : Bool
  index_matters : Bool
  internal : Bool
  keyable : Bool
  readable : Bool
  render_source : Bool
  storable : Bool
  writable : Bool
deriving DecidableEq, Repr

/-- `Attribute.__init__` with the keyword defaults of `base.py`. -/
def AttrCommon.mk0 (name : String) : AttrCommon where
  name := name
  short_name := none
  affects_appearence := false
  affects_world_space := false
  cached := true
  channel_box := false
  connectable := true
  disconnect_behavior := OpenMaya.MFnAttribute.kNothing
  hidden := false
  indeterminant := false
  index_matters := true
  internal := false
  keyable := false
  readable := true
  render_source := false
  storable := true
  writable := true

/-- The class-level constants of a `NumericAttribute` subclass:
`NUMERIC_CLS`, `DATA_TYPE`, `DEFAULT_UNIT`, and whether `MFN_CLS` is
`MFnUnitAttribute` (`true`) or `MFnNumericAttribute` (`false`). -/
structure NumericClassSpec where
  numeric_cls : NumCls
  data_type : ℕ
  default_unit : Option ℕ
  mfn_unit : Bool
deriving DecidableEq, Repr

/-- An instance of (a subclass of) `NumericAttribute`
(`base.py` lines 352-385). -/
structure NumericAttr where
  common : AttrCommon
  spec : NumericClassSpec
  unit : Option ℕ
  default : Option MayaNumV
  min : Option MayaNumV
  max : Option MayaNumV
  soft_min : Option MayaNumV
  soft_max : Option MayaNumV
deriving DecidableEq, Repr

/-- Name of one of the five `NumericProperty` descriptors on
`NumericAttribute` (the `self.name` set by `__set_name__`). -/
inductive PropName where
  | default
  | min
  | max
  | soft_min
  | soft_max
deriving DecidableEq, Repr

/-- Read the stored value of the property named `p`
(`NumericProperty.__get__`). -/
def NumericAttr.getProp (a : NumericAttr) : PropName → Option MayaNumV
  | .default => a.default
  | .min => a.min
  | .max => a.max
  | .soft_min => a.soft_min
  | .soft_max => a.soft_max

/-- Replace the stored value of the property named `p`
(the final `obj.__dict__[self.name] = ...` of the setter). -/
def NumericAttr.withProp (a : NumericAttr) (p : PropName) (v : Option MayaNumV) :
    NumericAttr :=
  match p with
  | .default => { a with default := v }
  | .min => { a with min := v }
  | .max => { a with max := v }
  | .soft_min => { a with soft_min := v }
  | .soft_max => { a with soft_max := v }

/-- `setattr(a, p, value)` on a `NumericAttribute`: runs
`NumericProperty.__set__` with the `NUMERIC_CLS` and `unit` of `a`;
`none` means the setter raised. -/
def NumericAttr.setProp (host : Host) (a : NumericAttr) (p : PropName)
    (value : Option MayaNumV) : Option NumericAttr :=
  (NumericProperty.setValue host a.spec.numeric_cls a.unit value).map
    (a.withProp p)

/-- `NumericAttribute.__init__` (`base.py` lines 367-385): stores
`unit if unit is not None else DEFAULT_UNIT` and assigns the five
properties through their setters; `none` means the constructor raised. -/
def NumericAttribute.init (host : Host) (spec : NumericClassSpec)
    (common : AttrCommon) (default min max soft_min soft_max : Option MayaNumV)
    (unit : Option ℕ) : Option NumericAttr := do
  let base : NumericAttr :=
    { common := common, spec := spec
      unit := if unit.isSome then unit else spec.default_unit
      default := none, min := none, max := none
      soft_min := none, soft_max := none }
  let a ← base.setProp host .default default
  let a ← a.setProp host .min min
  let a ← a.setProp host .max max
  let a ← a.setProp host .soft_min soft_min
  let a ← a.setProp host .soft_max soft_max
  return a

/-- A stored property value is well formed for a given `NUMERIC_CLS` and
unit: floats for the float class, ints for the int class, and for a
unit-bearing class a value of that class whose unit agrees with the
attribute unit whenever the attribute has one.  Every value the setter
stores is of this shape. -/
def wfVal (numeric_cls : NumCls) (unit : Option ℕ) : Option MayaNumV → Bool
  | none => true
  | some (.flt _) => numeric_cls == .flt
  | some (.intV _) => numeric_cls == .int
  | some (.unitVal c _ u) =>
      numeric_cls == .unitC c &&
        (match unit with
         | some tu => u == tu
         | none => true)

/-- Setting back a well-formed stored value is the identity: the setter
normalisation leaves it untouched. -/
theorem setValue_of_wf (host : Host) (numeric_cls : NumCls) (unit : Option ℕ)
    (v : Option MayaNumV) (h : wfVal numeric_cls unit v = true) :
    NumericProperty.setValue host numeric_cls unit v = some v := by
  match v with
  | none => rfl
  | some (.flt q) =>
    simp only [wfVal, beq_iff_eq] at h
    subst h
    rfl
  | some (.intV n) =>
    simp only [wfVal, beq_iff_eq] at h
    subst h
    rfl
  | some (.unitVal c mv mu) =>
    simp only [wfVal, Bool.and_eq_true, beq_iff_eq] at h
    obtain ⟨hc, hu⟩ := h
    subst hc
    match unit with
    | none => simp [NumericProperty.setValue]
    | some tu =>
      simp only [beq_iff_eq] at hu
      subst hu
      simp [NumericProperty.setValue]

/-- Every value the setter stores is well formed. -/
theorem setValue_wf (host : Host) (numeric_cls : NumCls) (unit : Option ℕ)
    (value w : Option MayaNumV)
    (h : NumericProperty.setValue host numeric_cls unit value = some w) :
    wfVal numeric_cls unit w = true := by
  match value with
  | none =>
    simp [NumericProperty.setValue] at h
    subst h
    rfl
  | some v =>
    match numeric_cls with
    | .flt =>
      cases v <;> simp_all [NumericProperty.setValue, pyFloat, wfVal] <;>
        simp [← h, wfVal]
    | .int =>
      cases v <;> simp_all [NumericProperty.setValue, pyInt, wfVal] <;>
        simp [← h, wfVal]
    | .unitC c =>
      match v with
      | .flt q =>
        simp only [NumericProperty.setValue, unitCtor, Option.map_some] at h
        cases h
        cases unit <;> simp [wfVal, Option.getD]
      | .intV n =>
        simp only [NumericProperty.setValue, unitCtor, Option.map_some] at h
        cases h
        cases unit <;> simp [wfVal, Option.getD]
      | .unitVal c' mv mu =>
        by_cases hc : c' = c
        · subst hc
          match unit with
          | none =>
            simp only [NumericProperty.setValue, if_pos rfl] at h
            cases h
            simp [wfVal]
          | some tu =>
            by_cases hmu : mu = tu
            · subst hmu
              simp only [NumericProperty.setValue, if_pos rfl, ne_eq,
                not_true_eq_false, if_neg, ite_false] at h
              simp at h
              cases h
              simp [wfVal]
            · simp only [NumericProperty.setValue, if_pos rfl, ne_eq, hmu,
                not_false_eq_true, if_pos] at h
              simp at h
              cases h
              simp [wfVal]
        · simp [NumericProperty.setValue, hc, unitCtor] at h

/-!
Concrete `NumericAttribute` subclasses (`attributes.py`).
-/

/-- Class constants of `Double` (`attributes.py` lines 198-204). -/
def doubleSpec : NumericClassSpec :=
  ⟨.flt, OpenMaya.MFnNumericData.kDouble, none, false⟩

/-- Class constants of `Float` (`attributes.py` lines 389-395). -/
def floatSpec : NumericClassSpec :=
  ⟨.flt, OpenMaya.MFnNumericData.kFloat, none, false⟩

/-- Class constants of `Long` (`attributes.py` lines 452-458). -/
def longSpec : NumericClassSpec :=
  ⟨.int, OpenMaya.MFnNumericData.kLong, none, false⟩

/-- Class constants of `Short` (`attributes.py` lines 495-501). -/
def shortSpec : NumericClassSpec :=
  ⟨.int, OpenMaya.MFnNumericData.kShort, none, false⟩

/-- Class constants of `Angle` (`attributes.py` lines 317-323). -/
def angleSpec : NumericClassSpec :=
  ⟨.unitC .angle, OpenMaya.MFnUnitAttribute.kAngle,
    some OpenMaya.MAngle.kDegrees, true⟩

/-- Class constants of `Distance` (`attributes.py` lines 267-273). -/
def distanceSpec : NumericClassSpec :=
  ⟨.unitC .distance, OpenMaya.MFnUnitAttribute.kDistance,
    some OpenMaya.MDistance.kCentimeters, true⟩

/-!
`NumericCompoundProperty` (`base.py` lines 388-438).  The children of the
owning object are a list of `NumericAttr`; `child_attr` is the property
name `p`.
-/

/-- `NumericCompoundProperty.__get__` (`base.py` lines 410-419): the tuple
of the children stored values. -/
def NumericCompoundProperty.getValue (p : PropName)
    (children : List NumericAttr) : List (Option MayaNumV) :=
  children.map (fun c => c.getProp p)

/-- The revert loop in the `except` branch of
`NumericCompoundProperty.__set__` (`base.py` lines 434-435): restore each
backed-up child in backup order; if a restore itself raises, the loop
stops and the remaining backed-up children keep their new values. -/
def NumericCompoundProperty.restoreBackup (host : Host) (p : PropName) :
    List (NumericAttr × Option MayaNumV) → List NumericAttr
  | [] => []
  | (c, b) :: rest =>
    match NumericAttr.setProp host c p b with
    | some c2 => c2 :: NumericCompoundProperty.restoreBackup host p rest
    | none => c :: rest.map Prod.fst

/-- The `for child, val in zip(children, value)` loop of
`NumericCompoundProperty.__set__` (`base.py` lines 429-438).  `backup`
holds the already-processed children (with their new values) paired with
their previous stored values.  `.ok` is normal return with the final
children, `.error` carries the children state after the revert loop. -/
def NumericCompoundProperty.setLoop (host : Host) (p : PropName)
    (backup : List (NumericAttr × Option MayaNumV)) :
    List NumericAttr → List (Option MayaNumV) →
    Except (List NumericAttr) (List NumericAttr)
  | children, [] => .ok (backup.map Prod.fst ++ children)
  | [], _ => .ok (backup.map Prod.fst)
  | c :: cs, v :: vs =>
    match NumericAttr.setProp host c p v with
    | some c2 =>
      NumericCompoundProperty.setLoop host p (backup ++ [(c2, c.getProp p)])
        cs vs
    | none =>
      .error (NumericCompoundProperty.restoreBackup host p backup ++ c :: cs)

/-- `NumericCompoundProperty.__set__` (`base.py` lines 421-438): a `None`
value becomes a tuple of `None` of the children length, then the zip loop
runs with an empty backup. -/
def NumericCompoundProperty.setValue (host : Host) (p : PropName)
    (children : List NumericAttr) (value : Option (List (Option MayaNumV))) :
    Except (List NumericAttr) (List NumericAttr) :=
  let vals :=
    match value with
    | none => children.map (fun _ => (none : Option MayaNumV))
    | some vs => vs
  NumericCompoundProperty.setLoop host p [] children vals

theorem withProp_getProp (a : NumericAttr) (p : PropName) :
    a.withProp p (a.getProp p) = a := by
  cases p <;> rfl

theorem withProp_withProp (a : NumericAttr) (p : PropName)
    (v w : Option MayaNumV) :
    (a.withProp p v).withProp p w = a.withProp p w := by
  cases p <;> rfl

theorem spec_withProp (a : NumericAttr) (p : PropName) (v : Option MayaNumV) :
    (a.withProp p v).spec = a.spec := by
  cases p <;> rfl

theorem unit_withProp (a : NumericAttr) (p : PropName) (v : Option MayaNumV) :
    (a.withProp p v).unit = a.unit := by
  cases p <;> rfl

/-- The backup list restores exactly to `orig`: every restore succeeds and
yields the corresponding original child. -/
def restoresOk (host : Host) (p : PropName) :
    List (NumericAttr × Option MayaNumV) → List NumericAttr → Prop
  | [], [] => True
  | (c, b) :: rest, o :: os =>
    NumericAttr.setProp host c p b = some o ∧ restoresOk host p rest os
  | _, _ => False

theorem restoreBackup_of_restoresOk (host : Host) (p : PropName) :
    ∀ (backup : List (NumericAttr × Option MayaNumV))
      (orig : List NumericAttr), restoresOk host p backup orig →
      NumericCompoundProperty.restoreBackup host p backup = orig
  | [], [], _ => rfl
  | [], _ :: _, h => absurd h (by simp [restoresOk])
  | _ :: _, [], h => absurd h (by simp [restoresOk])
  | (c, b) :: rest, o :: os, h => by
    obtain ⟨h1, h2⟩ := h
    simp only [NumericCompoundProperty.restoreBackup, h1]
    exact congrArg (o :: ·) (restoreBackup_of_restoresOk host p rest os h2)

theorem restoresOk_append (host : Host) (p : PropName) :
    ∀ (backup : List (NumericAttr × Option MayaNumV))
      (orig : List NumericAttr) (c2 c : NumericAttr) (b : Option MayaNumV),
      restoresOk host p backup orig →
      NumericAttr.setProp host c2 p b = some c →
      restoresOk host p (backup ++ [(c2, b)]) (orig ++ [c])
  | [], [], c2, c, b, _, hset => ⟨hset, trivial⟩
  | [], _ :: _, _, _, _, h, _ => absurd h (by simp [restoresOk])
  | _ :: _, [], _, _, _, h, _ => absurd h (by simp [restoresOk])
  | (c0, b0) :: rest, o :: os, c2, c, b, h, hset => by
    obtain ⟨h1, h2⟩ := h
    exact ⟨h1, restoresOk_append host p rest os c2 c b h2 hset⟩

/-- A successful child set, reverted with the previous well-formed stored
value, gives back the original child. -/
theorem setProp_revert (host : Host) (c c2 : NumericAttr) (p : PropName)
    (v : Option MayaNumV)
    (hwf : wfVal c.spec.numeric_cls c.unit (c.getProp p) = true)
    (hset : NumericAttr.setProp host c p v = some c2) :
    NumericAttr.setProp host c2 p (c.getProp p) = some c := by
  simp only [NumericAttr.setProp, Option.map_eq_some'] at hset
  obtain ⟨v2, hv2, hc2⟩ := hset
  subst hc2
  simp only [NumericAttr.setProp, spec_withProp, unit_withProp,
    setValue_of_wf host _ _ _ hwf, Option.map_some', withProp_withProp,
    withProp_getProp]

/-- Invariant lemma for the zip loop: when the loop raises, the resulting
children state is the original prefix concatenated with the untouched
remainder. -/
theorem setLoop_error (host : Host) (p : PropName) :
    ∀ (children : List NumericAttr) (vals : List (Option MayaNumV))
      (backup : List (NumericAttr × Option MayaNumV))
      (orig s : List NumericAttr),
      restoresOk host p backup orig →
      (∀ c ∈ children, wfVal c.spec.numeric_cls c.unit (c.getProp p) = true) →
      NumericCompoundProperty.setLoop host p backup children vals = .error s →
      s = orig ++ children := by
  intro children
  induction children with
  | nil =>
    intro vals backup orig s _ _ herr
    cases vals <;> simp [NumericCompoundProperty.setLoop] at herr
  | cons c cs ih =>
    intro vals backup orig s hres hwf herr
    cases vals with
    | nil => simp [NumericCompoundProperty.setLoop] at herr
    | cons v vs =>
      simp only [NumericCompoundProperty.setLoop] at herr
      cases hset : NumericAttr.setProp host c p v with
      | some c2 =>
        rw [hset] at herr
        have hwfc : wfVal c.spec.numeric_cls c.unit (c.getProp p) = true :=
          hwf c (List.mem_cons_self c cs)
        have hres2 : restoresOk host p (backup ++ [(c2, c.getProp p)])
            (orig ++ [c]) :=
          restoresOk_append host p backup orig c2 c (c.getProp p) hres
            (setProp_revert host c c2 p v hwfc hset)
        have := ih vs (backup ++ [(c2, c.getProp p)]) (orig ++ [c]) s hres2
          (fun x hx => hwf x (List.mem_cons_of_mem c hx)) herr
        simpa using this
      | none =>
        rw [hset] at herr
        have := restoreBackup_of_restoresOk host p backup orig hres
        simp only [Except.error.injEq] at herr
        subst herr
        rw [this]

/-- C1: if assigning a tuple to a compound numeric property raises while
setting one child, every child set earlier in the assignment is restored
to its previous value, the exception propagates (the result is `.error`),
and reading the property afterwards gives the same tuple as before: the
children are exactly the original ones. -/
theorem numeric_compound_set_rollback (host : Host) (p : PropName)
    (children : List NumericAttr) (value : Option (List (Option MayaNumV)))
    (s : List NumericAttr)
    (hwf : ∀ c ∈ children, wfVal c.spec.numeric_cls c.unit (c.getProp p) = true)
    (herr : NumericCompoundProperty.setValue host p children value = .error s) :
    s = children ∧
      NumericCompoundProperty.getValue p s =
        NumericCompoundProperty.getValue p children := by
  have h : s = children := by
    cases value with
    | none =>
      simp only [NumericCompoundProperty.setValue] at herr
      have := setLoop_error host p children
        (children.map (fun _ => (none : Option MayaNumV))) [] [] s trivial
        hwf herr
      simpa using this
    | some vs =>
      simp only [NumericCompoundProperty.setValue] at herr
      have := setLoop_error host p children vs [] [] s trivial hwf herr
      simpa using this
  exact ⟨h, by rw [h]⟩

/-- Host used by the concrete witnesses: magnitude-preserving conversion. -/
def host0 : Host := ⟨fun _ v _ _ => v, fun _ => 0⟩

/-- First witness child: a `Double` named `tX` with default `1.0`. -/
def wChild1 : NumericAttr :=
  { common := AttrCommon.mk0 "tX", spec := doubleSpec, unit := none
    default := some (.flt 1), min := none, max := none
    soft_min := none, soft_max := none }

/-- Second witness child: a `Double` named `tY` with default `2.0`. -/
def wChild2 : NumericAttr :=
  { common := AttrCommon.mk0 "tY", spec := doubleSpec, unit := none
    default := some (.flt 2), min := none, max := none
    soft_min := none, soft_max := none }

/-- Witness for C1: assigning `(5.0, MAngle(0))` to the default of a
two-`Double` compound sets the first child, fails on the second
(`float(MAngle)` raises), and leaves both children unchanged. -/
theorem numeric_compound_set_rollback_witness :
    NumericCompoundProperty.setValue host0 .default [wChild1, wChild2]
        (some [some (.flt 5), some (.unitVal .angle 0 0)]) =
      .error [wChild1, wChild2] ∧
    ([wChild1, wChild2] = [wChild1, wChild2] ∧
      NumericCompoundProperty.getValue .default [wChild1, wChild2] =
        NumericCompoundProperty.getValue .default [wChild1, wChild2]) :=
  ⟨by rfl,
    numeric_compound_set_rollback host0 .default [wChild1, wChild2]
      (some [some (.flt 5), some (.unitVal .angle 0 0)]) [wChild1, wChild2]
      (by decide) (by rfl)⟩

/-!
`NumericCompoundAttribute` (`base.py` lines 441-482).
-/

/-- Class-level constants of a `NumericCompoundAttribute` subclass:
`CHILD_CLS` (its own class constants), `CHILD_SUFFIXES`, `DATA_TYPE`,
`DEFAULT_UNIT`, and whether the subclass is `Color` (which
`create_mobject` special-cases). -/
structure NCClassSpec where
  child_spec : NumericClassSpec
  child_suffixes : List String
  data_type : ℕ
  default_unit : Option ℕ
  is_color : Bool
deriving DecidableEq, Repr

/-- An instance of (a subclass of) `NumericCompoundAttribute`. -/
structure NCAttr where
  common : AttrCommon
  spec : NCClassSpec
  unit : Option ℕ
  children : List NumericAttr
deriving DecidableEq, Repr

/-- `setattr(a, p, value)` on a `NumericCompoundAttribute`: runs
`NumericCompoundProperty.__set__` over the children; `none` means the
setter raised. -/
def NCAttr.setCompoundProp (host : Host) (a : NCAttr) (p : PropName)
    (value : Option (List (Option MayaNumV))) : Option NCAttr :=
  match NumericCompoundProperty.setValue host p a.children value with
  | .ok cs => some { a with children := cs }
  | .error _ => none

/-- A child as built by `CHILD_CLS(f"{name}{s}")`: keyword defaults
everywhere, unit equal to the child-class `DEFAULT_UNIT`, nothing stored
in the five properties. -/
def freshChild (cs : NumericClassSpec) (nm : String) : NumericAttr :=
  { common := AttrCommon.mk0 nm, spec := cs, unit := cs.default_unit
    default := none, min := none, max := none
    soft_min := none, soft_max := none }

/-- `NumericAttribute.__init__` with every keyword left at its default
builds exactly a fresh child. -/
theorem numericAttribute_init_fresh (host : Host) (cs : NumericClassSpec)
    (cm : AttrCommon) :
    NumericAttribute.init host cs cm none none none none none none =
      some { common := cm, spec := cs, unit := cs.default_unit
             default := none, min := none, max := none
             soft_min := none, soft_max := none } := rfl

/-- The `for s in self.CHILD_SUFFIXES` loop of
`NumericCompoundAttribute.__init__` (`base.py` lines 472-475): build one
`CHILD_CLS(f"{name}{s}")` per suffix, in order. -/
def initChildren (host : Host) (cspec : NumericClassSpec) (name : String) :
    List String → Option (List NumericAttr)
  | [] => some []
  | s :: rest => do
    let c ← NumericAttribute.init host cspec (AttrCommon.mk0 (name ++ s))
      none none none none none none
    let cs ← initChildren host cspec name rest
    return c :: cs

/-- The child-construction loop always succeeds and yields the fresh
children in suffix order. -/
theorem initChildren_eq (host : Host) (cspec : NumericClassSpec)
    (name : String) :
    ∀ l : List String, initChildren host cspec name l =
      some (l.map (fun s => freshChild cspec (name ++ s)))
  | [] => rfl
  | s :: rest => by
    simp [initChildren, numericAttribute_init_fresh,
      initChildren_eq host cspec name rest, freshChild]

/-- `NumericCompoundAttribute.__init__` (`base.py` lines 458-482): build
one child per suffix, store the unit, then assign the five compound
properties through their setters; `none` means the constructor raised. -/
def NumericCompoundAttribute.init (host : Host) (spec : NCClassSpec)
    (common : AttrCommon)
    (default min max soft_min soft_max : Option (List (Option MayaNumV)))
    (unit : Option ℕ) : Option NCAttr := do
  let children ← initChildren host spec.child_spec common.name
    spec.child_suffixes
  let a ← NCAttr.setCompoundProp host
    { common := common, spec := spec
      unit := if unit.isSome then unit else spec.default_unit
      children := children } .default default
  let a ← a.setCompoundProp host .min min
  let a ← a.setCompoundProp host .max max
  let a ← a.setCompoundProp host .soft_min soft_min
  let a ← a.setCompoundProp host .soft_max soft_max
  return a

theorem common_withProp (a : NumericAttr) (p : PropName) (v : Option MayaNumV) :
    (a.withProp p v).common = a.common := by
  cases p <;> rfl

/-- When the zip loop returns normally, any child observation invariant
under property writes is preserved. -/
theorem setLoop_ok_map {γ : Type} (host : Host) (p : PropName)
    (f : NumericAttr → γ)
    (hf : ∀ a v, f (NumericAttr.withProp a p v) = f a) :
    ∀ (children : List NumericAttr) (vals : List (Option MayaNumV))
      (backup : List (NumericAttr × Option MayaNumV)) (s : List NumericAttr),
      NumericCompoundProperty.setLoop host p backup children vals = .ok s →
      s.map f = backup.map (fun pr => f pr.1) ++ children.map f := by
  intro children
  induction children with
  | nil =>
    intro vals backup s h
    cases vals <;>
      simp only [NumericCompoundProperty.setLoop, Except.ok.injEq] at h <;>
      subst h <;> simp
  | cons c cs ih =>
    intro vals backup s h
    cases vals with
    | nil =>
      simp only [NumericCompoundProperty.setLoop, Except.ok.injEq] at h
      subst h
      simp
    | cons v vs =>
      simp only [NumericCompoundProperty.setLoop] at h
      cases hset : NumericAttr.setProp host c p v with
      | some c2 =>
        rw [hset] at h
        have hrec := ih vs (backup ++ [(c2, c.getProp p)]) s h
        have hfc : f c2 = f c := by
          rcases Option.map_eq_some'.mp
            (by simpa [NumericAttr.setProp] using hset) with ⟨v2, _, rfl⟩
          exact hf c v2
        simp only [List.map_append, List.map_cons, List.map_nil, hfc] at hrec
        simp [hrec]
      | none =>
        rw [hset] at h
        simp at h

/-- Same preservation through `NumericCompoundProperty.__set__`. -/
theorem setValue_ok_map {γ : Type} (host : Host) (p : PropName)
    (f : NumericAttr → γ)
    (hf : ∀ a v, f (NumericAttr.withProp a p v) = f a)
    (children : List NumericAttr) (value : Option (List (Option MayaNumV)))
    (s : List NumericAttr)
    (h : NumericCompoundProperty.setValue host p children value = .ok s) :
    s.map f = children.map f := by
  cases value with
  | none =>
    simp only [NumericCompoundProperty.setValue] at h
    simpa using setLoop_ok_map host p f hf children _ [] s h
  | some vs =>
    simp only [NumericCompoundProperty.setValue] at h
    simpa using setLoop_ok_map host p f hf children vs [] s h

/-- Same preservation through a compound `setattr`. -/
theorem setCompoundProp_map {γ : Type} (host : Host) (p : PropName)
    (f : NumericAttr → γ)
    (hf : ∀ a v, f (NumericAttr.withProp a p v) = f a)
    (a a2 : NCAttr) (value : Option (List (Option MayaNumV)))
    (h : NCAttr.setCompoundProp host a p value = some a2) :
    a2.children.map f = a.children.map f := by
  simp only [NCAttr.setCompoundProp] at h
  cases hv : NumericCompoundProperty.setValue host p a.children value with
  | ok cs =>
    rw [hv] at h
    cases h
    exact setValue_ok_map host p f hf a.children value cs hv
  | error e =>
    rw [hv] at h
    cases h

/-- C5: a `NumericCompoundAttribute` constructed with name `n` gets
exactly one child per entry of `CHILD_SUFFIXES`, in suffix order, each an
instance of `CHILD_CLS` named `n` followed by the suffix. -/
theorem numeric_compound_init_children (host : Host) (spec : NCClassSpec)
    (common : AttrCommon)
    (default min max soft_min soft_max : Option (List (Option MayaNumV)))
    (unit : Option ℕ) (a : NCAttr)
    (h : NumericCompoundAttribute.init host spec common default min max
      soft_min soft_max unit = some a) :
    a.children.map (fun c => (c.common.name, c.spec)) =
      spec.child_suffixes.map (fun s => (common.name ++ s, spec.child_spec)) := by
  rw [NumericCompoundAttribute.init, initChildren_eq] at h
  simp only [Option.bind_eq_bind, Option.some_bind] at h
  obtain ⟨a1, h1, h⟩ := Option.bind_eq_some.mp h
  obtain ⟨a2, h2, h⟩ := Option.bind_eq_some.mp h
  obtain ⟨a3, h3, h⟩ := Option.bind_eq_some.mp h
  obtain ⟨a4, h4, h⟩ := Option.bind_eq_some.mp h
  obtain ⟨a5, h5, h⟩ := Option.bind_eq_some.mp h
  cases h
  have hf : ∀ (x : NumericAttr) (v : Option MayaNumV) (p : PropName),
      ((NumericAttr.withProp x p v).common.name,
        (NumericAttr.withProp x p v).spec) = (x.common.name, x.spec) := by
    intro x v p
    cases p <;> rfl
  have e1 := setCompoundProp_map host .default
    (fun c => (c.common.name, c.spec)) (fun x v => hf x v .default)
    _ _ default h1
  have e2 := setCompoundProp_map host .min
    (fun c => (c.common.name, c.spec)) (fun x v => hf x v .min)
    _ _ min h2
  have e3 := setCompoundProp_map host .max
    (fun c => (c.common.name, c.spec)) (fun x v => hf x v .max)
    _ _ max h3
  have e4 := setCompoundProp_map host .soft_min
    (fun c => (c.common.name, c.spec)) (fun x v => hf x v .soft_min)
    _ _ soft_min h4
  have e5 := setCompoundProp_map host .soft_max
    (fun c => (c.common.name, c.spec)) (fun x v => hf x v .soft_max)
    _ _ soft_max h5
  rw [e5, e4, e3, e2, e1]
  simp [freshChild, AttrCommon.mk0, List.map_map, Function.comp]

/-- Class constants of `Double3` (`attributes.py` lines 224-238). -/
def double3Spec : NCClassSpec :=
  ⟨doubleSpec, ["X", "Y", "Z"], OpenMaya.MFnNumericData.k3Double, none, false⟩

/-- The value of `Double3("t")`. -/
def tDouble3 : NCAttr :=
  { common := AttrCommon.mk0 "t", spec := double3Spec, unit := none
    children := [freshChild doubleSpec "tX", freshChild doubleSpec "tY",
      freshChild doubleSpec "tZ"] }

/-- Witness for C5: `Double3("t")` has children named `tX`, `tY`, `tZ`,
all of class `Double`, in that order. -/
theorem numeric_compound_init_children_witness :
    NumericCompoundAttribute.init host0 double3Spec (AttrCommon.mk0 "t")
        none none none none none none = some tDouble3 ∧
    tDouble3.children.map (fun c => (c.common.name, c.spec)) =
      double3Spec.child_suffixes.map
        (fun s => ((AttrCommon.mk0 "t").name ++ s, double3Spec.child_spec)) :=
  ⟨by rfl,
    numeric_compound_init_children host0 double3Spec (AttrCommon.mk0 "t")
      none none none none none none tDouble3 (by rfl)⟩

/-!
`Enum` (`attributes.py` lines 149-195).
-/

/-- An instance of `Enum`: `_fields` is an insertion-ordered int-keyed
dict, `_default` the optional explicitly assigned index. -/
structure EnumAttr where
  common : AttrCommon
  fields : List (ℤ × String)
  defaultStored : Option ℤ
deriving DecidableEq, Repr

/-- The `default` property setter (`attributes.py` lines 190-195):
raises `ValueError` (`none`) when the index is not a key of `_fields`,
otherwise stores it.  The check precedes the assignment, so a raising
call leaves `_default` untouched. -/
def EnumAttr.setDefault (e : EnumAttr) (v : ℤ) : Option EnumAttr :=
  if (e.fields.map Prod.fst).contains v then
    some { e with defaultStored := some v }
  else
    none

/-- The `default` property getter (`attributes.py` lines 181-188): the
stored index if any, else the smallest key when `_fields` is non-empty,
else `0`. -/
def EnumAttr.default (e : EnumAttr) : ℤ :=
  match e.defaultStored with
  | some d => d
  | none =>
    match (e.fields.map Prod.fst).min? with
    | some m => m
    | none => 0

/-- The `fields` argument of `Enum.__init__`: `None`, a list of labels,
or an int-keyed dict in insertion order. -/
inductive EnumFieldsArg where
  | fNone
  | fList (l : List String)
  | fDict (l : List (ℤ × String))
deriving DecidableEq, Repr

/-- `Enum.__init__` (`attributes.py` lines 154-175): build `_fields` from
the argument (a list gets indices `0, 1, ...`), then assign `default`
through the property setter when one is given. -/
def Enum.init (common : AttrCommon) (fields : EnumFieldsArg)
    (default : Option ℤ) : Option EnumAttr :=
  let fs : List (ℤ × String) :=
    match fields with
    | .fNone => []
    | .fList l => l.enum.map (fun p => ((p.1 : ℤ), p.2))
    | .fDict l => l
  let base : EnumAttr := { common := common, fields := fs, defaultStored := none }
  match default with
  | none => some base
  | some d => base.setDefault d

/-- C9: assigning `default` an index absent from `fields` raises
`ValueError`; a successful assignment is read back as given; with no
explicit assignment the getter returns the smallest key when `fields` is
non-empty and `0` otherwise. -/
theorem enum_default_spec (e : EnumAttr) (v : ℤ) :
    (EnumAttr.setDefault e v = none ↔ v ∉ e.fields.map Prod.fst) ∧
    (∀ e2, EnumAttr.setDefault e v = some e2 →
      e2.default = v ∧ e2.fields = e.fields) ∧
    (e.defaultStored = none → e.fields ≠ [] →
      (e.fields.map Prod.fst).min? = some e.default) ∧
    (e.defaultStored = none → e.fields = [] → e.default = 0) := by
  refine ⟨?_, ?_, ?_, ?_⟩
  · constructor
    · intro h hmem
      simp [EnumAttr.setDefault, hmem] at h
    · intro hmem
      simp [EnumAttr.setDefault, hmem]
  · intro e2 h
    simp only [EnumAttr.setDefault] at h
    split at h
    · injection h with h
      subst h
      exact ⟨rfl, rfl⟩
    · simp at h
  · intro hd hne
    cases hmin : (e.fields.map Prod.fst).min? with
    | some m => simp [EnumAttr.default, hd, hmin]
    | none =>
      cases hf : e.fields with
      | nil => exact absurd hf hne
      | cons x xs =>
        rw [hf] at hmin
        simp [List.min?] at hmin
  · intro hd hemp
    simp [EnumAttr.default, hd, hemp]

/-- Witness enum: fields with keys `2, 0, 5`, no explicit default. -/
def wEnum : EnumAttr :=
  { common := AttrCommon.mk0 "e", fields := [(2, "a"), (0, "b"), (5, "c")]
    defaultStored := none }

/-- Witness enum after `default = 5`. -/
def wEnumSet : EnumAttr :=
  { common := AttrCommon.mk0 "e", fields := [(2, "a"), (0, "b"), (5, "c")]
    defaultStored := some 5 }

/-- Witness enum with no fields. -/
def wEnumEmpty : EnumAttr :=
  { common := AttrCommon.mk0 "e2", fields := [], defaultStored := none }

/-- Witness for C9: index `7` is rejected; `default = 5` reads back as
`5`; with no explicit default the getter gives the smallest key `0`; with
no fields it gives `0`. -/
theorem enum_default_spec_witness :
    EnumAttr.setDefault wEnum 7 = none ∧
    (EnumAttr.setDefault wEnum 5 = some wEnumSet ∧
      wEnumSet.default = 5 ∧ wEnumSet.fields = wEnum.fields) ∧
    (wEnum.fields.map Prod.fst).min? = some wEnum.default ∧
    wEnumEmpty.default = 0 :=
  ⟨(enum_default_spec wEnum 7).1.mpr (by decide),
   ⟨by rfl, (enum_default_spec wEnum 5).2.1 wEnumSet (by rfl)⟩,
   (enum_default_spec wEnum 0).2.2.1 rfl (by decide),
   (enum_default_spec wEnumEmpty 0).2.2.2 rfl rfl⟩

/-!
`MatrixProperty` (`base.py` lines 268-307) and the matrix attributes
(`attributes.py` lines 36-77).
-/

/-- A Python exception raised by this package. -/
inductive PyError where
  | typeError
  | valueError
  | lockedNode (name : String)
deriving DecidableEq, Repr

/-- `OpenMaya.MMatrix`: its sixteen entries. -/
structure MMatrix where
  entries : List ℚ
deriving DecidableEq, Repr

/-- `OpenMaya.MMatrix.kIdentity`. -/
def MMatrix.kIdentity : MMatrix :=
  ⟨[1, 0, 0, 0, 0, 1, 0, 0, 0, 0, 1, 0, 0, 0, 0, 1]⟩

/-- The `OpenMaya.MMatrix(seq)` constructor: raises `ValueError` unless
the sequence has sixteen entries. -/
def MMatrix.ofSeq (l : List ℚ) : Except PyError MMatrix :=
  if l.length = 16 then .ok ⟨l⟩ else .error .valueError

/-- `OpenMaya.MTransformationMatrix`. -/
structure MTransformationMatrix where
  matrix : MMatrix
deriving DecidableEq, Repr

/-- `MTransformationMatrix.asMatrix`. -/
def MTransformationMatrix.asMatrix (t : MTransformationMatrix) : MMatrix :=
  t.matrix

/-- A runtime value assigned to a matrix default: a float sequence, an
`MMatrix`, an `MTransformationMatrix`, Python `None`, or a value of any
other type. -/
inductive MatrixValue where
  | seq (l : List ℚ)
  | matrix (m : MMatrix)
  | transform (t : MTransformationMatrix)
  | pyNone
  | other
deriving DecidableEq, Repr

/-- `MatrixProperty.__set__` (`base.py` lines 290-307): a sequence goes
through the `MMatrix` constructor, with a wrong length reported as
`ValueError`; an `MTransformationMatrix` is converted with `asMatrix`;
anything that is not an `MMatrix` by then raises `TypeError`.  The
exceptional branches raise before the store, leaving the stored value
untouched. -/
def MatrixProperty.setValue : MatrixValue → Except PyError MMatrix
  | .seq l =>
    match MMatrix.ofSeq l with
    | .ok m => .ok m
    | .error err =>
      if l.length ≠ 16 then .error .valueError else .error err
  | .matrix m => .ok m
  | .transform t => .ok t.asMatrix
  | .pyNone => .error .typeError
  | .other => .error .typeError

/-- `MatrixProperty.__get__` (`base.py` lines 283-288): the stored value,
with the identity matrix as the never-assigned default. -/
def MatrixProperty.getValue (stored : Option MMatrix) : MMatrix :=
  stored.getD MMatrix.kIdentity

/-- C10: a sixteen-float sequence converts to an `MMatrix`, an
`MTransformationMatrix` converts via `asMatrix`, an `MMatrix` is stored
as-is; a sequence of any other length raises `ValueError` and any other
type raises `TypeError` (before the store); an unassigned default reads
as the identity matrix. -/
theorem matrix_property_spec :
    (∀ l : List ℚ, l.length = 16 →
      MatrixProperty.setValue (.seq l) = .ok ⟨l⟩) ∧
    (∀ m, MatrixProperty.setValue (.matrix m) = .ok m) ∧
    (∀ t, MatrixProperty.setValue (.transform t) = .ok t.asMatrix) ∧
    (∀ l : List ℚ, l.length ≠ 16 →
      MatrixProperty.setValue (.seq l) = .error .valueError) ∧
    (MatrixProperty.setValue .pyNone = .error .typeError ∧
      MatrixProperty.setValue .other = .error .typeError) ∧
    MatrixProperty.getValue none = MMatrix.kIdentity := by
  refine ⟨?_, fun m => rfl, fun t => rfl, ?_, ⟨rfl, rfl⟩, rfl⟩
  · intro l h
    simp [MatrixProperty.setValue, MMatrix.ofSeq, h]
  · intro l h
    simp [MatrixProperty.setValue, MMatrix.ofSeq, h]

/-- Witness for C10 at concrete inputs: a sixteen-entry list converts, a
one-entry list raises `ValueError`. -/
theorem matrix_property_spec_witness :
    MatrixProperty.setValue
        (.seq [1, 2, 2, 0, 2, 1, 2, 0, 2, 2, 1, 0, 2, 2, 2, 1]) =
      .ok ⟨[1, 2, 2, 0, 2, 1, 2, 0, 2, 2, 1, 0, 2, 2, 2, 1]⟩ ∧
    MatrixProperty.setValue (.seq [1]) = .error .valueError :=
  ⟨matrix_property_spec.1 [1, 2, 2, 0, 2, 1, 2, 0, 2, 2, 1, 0, 2, 2, 2, 1]
      (by decide),
   matrix_property_spec.2.2.2.1 [1] (by decide)⟩

/-!
The descriptor hierarchy as consumed by `create.py`: one constructor per
attribute class of `attributes.py` (`Message`, `DoubleMatrix`,
`FloatMatrix`, `String`, `Curve`, `Bool`, `Compound`, `Enum`, the
`NumericAttribute` subclasses and the `NumericCompoundAttribute`
subclasses, `Color` included via `is_color`).
-/

inductive Attr where
  | message (c : AttrCommon)
  | doubleMatrix (c : AttrCommon) (default : MMatrix)
  | floatMatrix (c : AttrCommon) (default : MMatrix)
  | string (c : AttrCommon) (default : String) (as_filename : Bool)
  | curve (c : AttrCommon)
  | bool (c : AttrCommon) (default : Bool)
  | compound (c : AttrCommon) (children : List Attr)
  | enum (e : EnumAttr)
  | numeric (a : NumericAttr)
  | numericCompound (a : NCAttr)

/-- The `Attribute.__init__` state of a descriptor. -/
def Attr.commonOf : Attr → AttrCommon
  | .message c => c
  | .doubleMatrix c _ => c
  | .floatMatrix c _ => c
  | .string c _ _ => c
  | .curve c => c
  | .bool c _ => c
  | .compound c _ => c
  | .enum e => e.common
  | .numeric a => a.common
  | .numericCompound a => a.common

/-- `attribute.name`. -/
def Attr.name (a : Attr) : String :=
  a.commonOf.name

/-- The class-level `DATA_TYPE` of each descriptor class. -/
def Attr.dataType : Attr → ℕ
  | .message _ => OpenMaya.MFnData.kInvalid
  | .doubleMatrix _ _ => OpenMaya.MFnMatrixAttribute.kDouble
  | .floatMatrix _ _ => OpenMaya.MFnMatrixAttribute.kFloat
  | .string _ _ _ => OpenMaya.MFnData.kString
  | .curve _ => OpenMaya.MFnData.kNurbsCurve
  | .bool _ _ => OpenMaya.MFnNumericData.kBoolean
  | .compound _ _ => OpenMaya.MFnData.kInvalid
  | .enum _ => OpenMaya.MFnData.kInvalid
  | .numeric a => a.spec.data_type
  | .numericCompound a => a.spec.data_type

/-- `attribute.short_name or attribute.name` (an empty short name is
falsy in Python and falls back to the long name). -/
def AttrCommon.shortOrName (c : AttrCommon) : String :=
  match c.short_name with
  | some s => if s = "" then c.name else s
  | none => c.name

/-- The attribute-function-set flags `create_mobject` copies onto the
created native object (`create.py` lines 59-67). -/
structure MfnFlags where
  keyable : Bool
  channelBox : Bool
  hidden : Bool
  storable : Bool
  connectable : Bool
  readable : Bool
  writable : Bool
  disconnectBehavior : ℕ
deriving DecidableEq, Repr

/-- The flag assignments of `create.py` lines 59-67 for a descriptor. -/
def AttrCommon.mfnFlags (c : AttrCommon) : MfnFlags :=
  ⟨c.keyable, c.channel_box, c.hidden, c.storable, c.connectable,
    c.readable, c.writable, c.disconnect_behavior⟩

/-- Which native limit setter was invoked (`setMin`, `setMax`,
`setSoftMin`, `setSoftMax`). -/
inductive LimitKind where
  | min
  | max
  | softMin
  | softMax
deriving DecidableEq, Repr

mutual

/-- One positional argument passed to `MFnAttribute.create`
(after the two name arguments, which are also recorded): enum/data-type
codes, bool and numeric defaults, an `MFnStringData` object holding a
string default, or a compiled child attribute object. -/
inductive MfnArg where
  | strV (s : String)
  | dataType (t : ℕ)
  | boolV (b : Bool)
  | intArg (n : ℤ)
  | numArg (v : MayaNumV)
  | stringData (s : String)
  | childObj (o : MObjectDesc)

/-- The observable result of `create_mobject`: the `create` arguments,
the flags assigned on the function set, the limit setters invoked, the
enum fields added, the `usedAsFilename` / `usedAsColor` writes and the
children attached with `addChild`, each in call order. -/
inductive MObjectDesc where
  | mk (createArgs : List MfnArg) (flags : MfnFlags)
      (limits : List (LimitKind × MayaNumV))
      (enumFields : List (String × ℤ))
      (usedAsFilename : Option Bool)
      (usedAsColor : Bool)
      (addedChildren : List MObjectDesc)

end

def MObjectDesc.createArgs : MObjectDesc → List MfnArg
  | .mk a _ _ _ _ _ _ => a

def MObjectDesc.flags : MObjectDesc → MfnFlags
  | .mk _ f _ _ _ _ _ => f

def MObjectDesc.limits : MObjectDesc → List (LimitKind × MayaNumV)
  | .mk _ _ l _ _ _ _ => l

def MObjectDesc.enumFields : MObjectDesc → List (String × ℤ)
  | .mk _ _ _ e _ _ _ => e

def MObjectDesc.usedAsFilename : MObjectDesc → Option Bool
  | .mk _ _ _ _ u _ _ => u

def MObjectDesc.usedAsColor : MObjectDesc → Bool
  | .mk _ _ _ _ _ u _ => u

def MObjectDesc.addedChildren : MObjectDesc → List MObjectDesc
  | .mk _ _ _ _ _ _ c => c

/-- The native limit setter calls of `create.py` lines 69-78: one call
per non-`None` limit property, in source order. -/
def numericLimits (a : NumericAttr) : List (LimitKind × MayaNumV) :=
  (match a.min with
   | some v => [(LimitKind.min, v)]
   | none => []) ++
  (match a.max with
   | some v => [(LimitKind.max, v)]
   | none => []) ++
  (match a.soft_min with
   | some v => [(LimitKind.softMin, v)]
   | none => []) ++
  (match a.soft_max with
   | some v => [(LimitKind.softMax, v)]
   | none => [])

/-- The limit property of a `NumericAttribute` read by each native
setter call. -/
def NumericAttr.limitProp (a : NumericAttr) : LimitKind → Option MayaNumV
  | .min => a.min
  | .max => a.max
  | .softMin => a.soft_min
  | .softMax => a.soft_max

/-- `getattr(default, "asUnits", lambda _: default)(attribute.unit)`
(`create.py` line 121): a unit-bearing default is converted to a plain
float in the attribute unit with `asUnits` (raising `TypeError` when the
attribute has no unit), a plain number passes through unchanged. -/
def mfnDefaultArg (host : Host) (unit : Option ℕ) : MayaNumV → Option MfnArg
  | .flt q => some (.numArg (.flt q))
  | .intV n => some (.numArg (.intV n))
  | .unitVal c v u =>
    match unit with
    | some tu => some (.numArg (.flt (host.conv c v u tu)))
    | none => none

/-- `create_mobject` applied to a `NumericAttribute` (the shape every
`NumericCompoundAttribute` child compiles to). -/
def create_numeric (host : Host) (a : NumericAttr) : Option MObjectDesc :=
  let args : List MfnArg :=
    [.strV a.common.name, .strV a.common.shortOrName] ++
      (if a.spec.data_type ≠ OpenMaya.MFnData.kInvalid then
        [.dataType a.spec.data_type]
      else [])
  match a.default with
  | none => some (.mk args a.common.mfnFlags (numericLimits a) [] none false [])
  | some d =>
    (mfnDefaultArg host a.unit d).map (fun x =>
      .mk (args ++ [x]) a.common.mfnFlags (numericLimits a) [] none false [])

/-- `get_mfn_args` (`create.py` lines 99-129): the positional arguments
of the native `create` call; `none` means the call raised. -/
def get_mfn_args (host : Host) (att : Attr) : Option (List MfnArg) :=
  let args0 : List MfnArg :=
    [.strV att.name, .strV att.commonOf.shortOrName]
  match att with
  | .numericCompound a =>
    (a.children.mapM (create_numeric host)).map (fun objs =>
      args0 ++ objs.map MfnArg.childObj)
  | _ =>
    let args1 := args0 ++
      (if att.dataType ≠ OpenMaya.MFnData.kInvalid then
        [.dataType att.dataType]
      else [])
    match att with
    | .bool _ d => some (args1 ++ [.boolV d])
    | .enum e => some (args1 ++ [.intArg e.default])
    | .string _ d _ => some (args1 ++ [.stringData d])
    | .numeric a =>
      match a.default with
      | none => some args1
      | some d => (mfnDefaultArg host a.unit d).map (fun x => args1 ++ [x])
    | _ => some args1

mutual

/-- `create_mobject` (`create.py` lines 53-96): run the native `create`
with `get_mfn_args`, copy the flags, invoke the limit setters for
`NumericAttribute`, then the `Enum` / `String` / `Color` / `Compound`
branch (a `Compound` compiles and attaches its children recursively, in
order); `none` means the call raised. -/
def create_mobject (host : Host) (att : Attr) : Option MObjectDesc :=
  match att with
  | .compound c cs => do
    let args ← get_mfn_args host (.compound c cs)
    let children ← create_children host cs
    return .mk args c.mfnFlags [] [] none false children
  | .enum e =>
    (get_mfn_args host (.enum e)).map (fun args =>
      .mk args e.common.mfnFlags []
        (e.fields.map (fun p => (p.2, p.1))) none false [])
  | .string c d asf =>
    (get_mfn_args host (.string c d asf)).map (fun args =>
      .mk args c.mfnFlags [] [] (some asf) false [])
  | .numeric a =>
    (get_mfn_args host (.numeric a)).map (fun args =>
      .mk args a.common.mfnFlags (numericLimits a) [] none false [])
  | .numericCompound a =>
    (get_mfn_args host (.numericCompound a)).map (fun args =>
      .mk args a.common.mfnFlags [] [] none a.spec.is_color [])
  | other =>
    (get_mfn_args host other).map (fun args =>
      .mk args other.commonOf.mfnFlags [] [] none false [])

/-- The `for child in attribute.children: mfn.addChild(...)` loop of the
`Compound` branch (`create.py` lines 93-94). -/
def create_children (host : Host) : List Attr → Option (List MObjectDesc)
  | [] => some []
  | a :: rest => do
    let o ← create_mobject host a
    let os ← create_children host rest
    return o :: os

end

/-- C3: `create_mobject` invokes the native limit setters exactly for the
non-`None` limit properties of a `NumericAttribute` descriptor, each at
most once, passing the stored property value; a `None` property is never
set. -/
theorem create_mobject_numeric_limits (host : Host) (a : NumericAttr)
    (desc : MObjectDesc) (h : create_mobject host (.numeric a) = some desc) :
    (desc.limits.map Prod.fst).Nodup ∧
    ∀ k v, ((k, v) ∈ desc.limits ↔ a.limitProp k = some v) := by
  have hl : desc.limits = numericLimits a := by
    simp only [create_mobject] at h
    rcases Option.map_eq_some'.mp h with ⟨args, _, rfl⟩
    rfl
  rw [hl]
  constructor
  · rcases hmin : a.min with _ | x <;> rcases hmax : a.max with _ | y <;>
      rcases hsmin : a.soft_min with _ | z <;>
      rcases hsmax : a.soft_max with _ | w <;>
      simp [numericLimits, hmin, hmax, hsmin, hsmax]
  · intro k v
    cases k <;>
      rcases hmin : a.min with _ | x <;> rcases hmax : a.max with _ | y <;>
      rcases hsmin : a.soft_min with _ | z <;>
      rcases hsmax : a.soft_max with _ | w <;>
      simp [numericLimits, NumericAttr.limitProp, hmin, hmax, hsmin, hsmax,
        eq_comm]

/-- Witness numeric attribute for C3: a `Double` with `min = 0.0` and
`soft_max = 10.0`, the other limits left `None`. -/
def wNum : NumericAttr :=
  { common := AttrCommon.mk0 "n", spec := doubleSpec, unit := none
    default := none, min := some (.flt 0), max := none
    soft_min := none, soft_max := some (.flt 10) }

/-- The compiled form of `wNum`. -/
def wNumDesc : MObjectDesc :=
  .mk [.strV "n", .strV "n", .dataType OpenMaya.MFnNumericData.kDouble]
    (AttrCommon.mk0 "n").mfnFlags
    [(LimitKind.min, .flt 0), (LimitKind.softMax, .flt 10)] [] none false []

/-- Witness for C3: compiling `wNum` records a `setMin` call with `0.0`,
and that call corresponds to the stored `min` property. -/
theorem create_mobject_numeric_limits_witness :
    create_mobject host0 (.numeric wNum) = some wNumDesc ∧
    ((LimitKind.min, MayaNumV.flt 0) ∈ wNumDesc.limits ↔
      wNum.limitProp .min = some (.flt 0)) :=
  ⟨by rfl,
    (create_mobject_numeric_limits host0 wNum wNumDesc (by rfl)).2
      .min (.flt 0)⟩

/-- The `addChild` loop compiles each child in order: the attached
objects correspond pointwise to the children. -/
theorem create_children_pointwise (host : Host) :
    ∀ (cs : List Attr) (os : List MObjectDesc),
      create_children host cs = some os →
      os.length = cs.length ∧
      ∀ (i : ℕ) (hi : i < cs.length) (hj : i < os.length),
        create_mobject host (cs.get ⟨i, hi⟩) = some (os.get ⟨i, hj⟩)
  | [], os, h => by
    simp only [create_children, Option.some.injEq] at h
    subst h
    exact ⟨rfl, fun i hi _ => absurd hi (by simp)⟩
  | a :: as, os, h => by
    simp only [create_children, Option.bind_eq_bind] at h
    obtain ⟨o, ho, h⟩ := Option.bind_eq_some.mp h
    obtain ⟨os2, hos, h⟩ := Option.bind_eq_some.mp h
    simp only [Option.pure_def, Option.some.injEq] at h
    subst h
    have ih := create_children_pointwise host as os2 hos
    refine ⟨by simp [ih.1], ?_⟩
    intro i hi hj
    cases i with
    | zero => simpa using ho
    | succ n => simpa using ih.2 n (by simpa using hi) (by simpa using hj)

/-- C4: a `Compound` descriptor compiles one native object per child by
recursive compilation and attaches them with `addChild` in children
order; a `NumericCompoundAttribute` instead passes its compiled children
as arguments to the native `create` call and attaches none. -/
theorem create_mobject_children_wiring (host : Host) :
    (∀ (c : AttrCommon) (cs : List Attr) (desc : MObjectDesc),
      create_mobject host (.compound c cs) = some desc →
      desc.addedChildren.length = cs.length ∧
      ∀ (i : ℕ) (hi : i < cs.length) (hj : i < desc.addedChildren.length),
        create_mobject host (cs.get ⟨i, hi⟩) =
          some (desc.addedChildren.get ⟨i, hj⟩)) ∧
    (∀ (a : NCAttr) (desc : MObjectDesc),
      create_mobject host (.numericCompound a) = some desc →
      desc.addedChildren = [] ∧
      ∃ objs, a.children.mapM (create_numeric host) = some objs ∧
        desc.createArgs =
          .strV a.common.name :: .strV a.common.shortOrName ::
            objs.map MfnArg.childObj) := by
  constructor
  · intro c cs desc h
    unfold create_mobject at h
    simp only [Option.bind_eq_bind] at h
    obtain ⟨args, _, h⟩ := Option.bind_eq_some.mp h
    obtain ⟨children, hch, h⟩ := Option.bind_eq_some.mp h
    simp only [Option.pure_def, Option.some.injEq] at h
    subst h
    exact create_children_pointwise host cs children hch
  · intro a desc h
    unfold create_mobject at h
    rcases Option.map_eq_some'.mp h with ⟨args, hargs, rfl⟩
    refine ⟨rfl, ?_⟩
    simp only [get_mfn_args] at hargs
    rcases Option.map_eq_some'.mp hargs with ⟨objs, hobjs, rfl⟩
    exact ⟨objs, hobjs, by simp [MObjectDesc.createArgs, Attr.name,
      Attr.commonOf]⟩

/-- Class constants of `Double2` (`attributes.py` lines 207-221). -/
def double2Spec : NCClassSpec :=
  ⟨doubleSpec, ["X", "Y"], OpenMaya.MFnNumericData.k2Double, none, false⟩

/-- Witness compound: a `Compound` holding a `Message` and a `Bool`. -/
def wCompound : Attr :=
  .compound (AttrCommon.mk0 "grp")
    [.message (AttrCommon.mk0 "msg"), .bool (AttrCommon.mk0 "flag") true]

/-- The compiled form of `wCompound`. -/
def wCompoundDesc : MObjectDesc :=
  .mk [.strV "grp", .strV "grp"] (AttrCommon.mk0 "grp").mfnFlags [] []
    none false
    [.mk [.strV "msg", .strV "msg"] (AttrCommon.mk0 "msg").mfnFlags [] []
      none false [],
     .mk [.strV "flag", .strV "flag",
        .dataType OpenMaya.MFnNumericData.kBoolean, .boolV true]
      (AttrCommon.mk0 "flag").mfnFlags [] [] none false []]

/-- Witness numeric compound: `Double2("uv")` as built by its
constructor. -/
def wDouble2 : NCAttr :=
  { common := AttrCommon.mk0 "uv", spec := double2Spec, unit := none
    children := [freshChild doubleSpec "uvX", freshChild doubleSpec "uvY"] }

/-- The compiled form of `wDouble2`: its children objects are `create`
arguments, `addChild` is never called. -/
def wDouble2Desc : MObjectDesc :=
  .mk [.strV "uv", .strV "uv",
      .childObj (.mk [.strV "uvX", .strV "uvX",
        .dataType OpenMaya.MFnNumericData.kDouble]
        (AttrCommon.mk0 "uvX").mfnFlags [] [] none false []),
      .childObj (.mk [.strV "uvY", .strV "uvY",
        .dataType OpenMaya.MFnNumericData.kDouble]
        (AttrCommon.mk0 "uvY").mfnFlags [] [] none false [])]
    (AttrCommon.mk0 "uv").mfnFlags [] [] none false []

/-- Witness for C4: the two-child compound compiles with two attached
children objects, and `Double2("uv")` compiles with its children objects
as `create` arguments and no attached children. -/
theorem create_mobject_children_wiring_witness :
    create_mobject host0 wCompound = some wCompoundDesc ∧
    create_mobject host0 (.numericCompound wDouble2) = some wDouble2Desc ∧
    (wCompoundDesc.addedChildren.length = 2 ∧
      wDouble2Desc.addedChildren = []) :=
  ⟨by rfl, by rfl,
    by
      have h1 := (create_mobject_children_wiring host0).1
        (AttrCommon.mk0 "grp")
        [.message (AttrCommon.mk0 "msg"), .bool (AttrCommon.mk0 "flag") true]
        wCompoundDesc (by rfl)
      have h2 := (create_mobject_children_wiring host0).2 wDouble2
        wDouble2Desc (by rfl)
      exact ⟨h1.1, h2.1⟩⟩

/-- The `create` arguments of a `NumericAttribute` descriptor before the
optional default: the two names, then the data type when it is not
`kInvalid`. -/
def numericBaseArgs (a : NumericAttr) : List MfnArg :=
  [.strV a.common.name, .strV a.common.shortOrName] ++
    (if a.spec.data_type ≠ OpenMaya.MFnData.kInvalid then
      [.dataType a.spec.data_type]
    else [])

/-- C7: the default passed to the native `create` call is the stored
default converted with `asUnits` into the attribute unit when it is
unit-bearing, the unmodified stored default when it is a plain number,
and no argument at all when it is `None`. -/
theorem get_mfn_args_numeric_default (host : Host) (a : NumericAttr) :
    (a.default = none →
      get_mfn_args host (.numeric a) = some (numericBaseArgs a)) ∧
    (∀ q, a.default = some (.flt q) →
      get_mfn_args host (.numeric a) =
        some (numericBaseArgs a ++ [.numArg (.flt q)])) ∧
    (∀ n, a.default = some (.intV n) →
      get_mfn_args host (.numeric a) =
        some (numericBaseArgs a ++ [.numArg (.intV n)])) ∧
    (∀ c v u tu, a.default = some (.unitVal c v u) → a.unit = some tu →
      get_mfn_args host (.numeric a) =
        some (numericBaseArgs a ++
          [.numArg (.flt (host.conv c v u tu))])) := by
  refine ⟨?_, ?_, ?_, ?_⟩
  · intro h
    simp [get_mfn_args, h, numericBaseArgs, Attr.name, Attr.commonOf,
      Attr.dataType]
  · intro q h
    simp [get_mfn_args, h, mfnDefaultArg, numericBaseArgs, Attr.name,
      Attr.commonOf, Attr.dataType]
  · intro n h
    simp [get_mfn_args, h, mfnDefaultArg, numericBaseArgs, Attr.name,
      Attr.commonOf, Attr.dataType]
  · intro c v u tu h hu
    simp [get_mfn_args, h, hu, mfnDefaultArg, numericBaseArgs, Attr.name,
      Attr.commonOf, Attr.dataType]

/-- Witness angle attribute for C7: an `Angle` whose default is
`MAngle(90, unit 2)` and whose unit is `1`. -/
def wAngle : NumericAttr :=
  { common := AttrCommon.mk0 "rot", spec := angleSpec
    unit := some OpenMaya.MAngle.kRadians
    default := some (.unitVal .angle 90 OpenMaya.MAngle.kDegrees)
    min := none, max := none, soft_min := none, soft_max := none }

/-- Witness for C7: the default of `wAngle` reaches the `create` call
converted with `asUnits` into unit `1`; under `host0` the magnitude is
preserved. -/
theorem get_mfn_args_numeric_default_witness :
    wAngle.default = some (.unitVal .angle 90 OpenMaya.MAngle.kDegrees) ∧
    wAngle.unit = some OpenMaya.MAngle.kRadians ∧
    get_mfn_args host0 (.numeric wAngle) =
      some (numericBaseArgs wAngle ++
        [.numArg (.flt (host0.conv .angle 90 OpenMaya.MAngle.kDegrees
          OpenMaya.MAngle.kRadians))]) :=
  ⟨rfl, rfl,
    (get_mfn_args_numeric_default host0 wAngle).2.2.2 .angle 90
      OpenMaya.MAngle.kDegrees OpenMaya.MAngle.kRadians rfl rfl⟩

/-!
`add_attribute` (`create.py` lines 23-50).
-/

/-- A dependency node handle: its unique name and lock state. -/
structure MFnDependencyNode where
  name : String
  isLocked : Bool
deriving DecidableEq, Repr

/-- A plug, identified by its node and attribute name (the result of
`node.findPlug(name, False)`). -/
structure MPlug where
  node : String
  attr : String
deriving DecidableEq, Repr

/-- One observable call against the host scene state: the
`modifier.addAttribute` / `modifier.doIt` / `modifier.newPlugValue`
calls and the direct `plug.isLocked` writes, in order. -/
inductive HostOp where
  | addAttr (node : String) (obj : MObjectDesc)
  | doIt
  | setPlugLocked (node : String) (attr : String) (locked : Bool)
  | newPlugValue (node : String) (attr : String) (value : MMatrix)

/-- `getattr(current, "children", [])` in the lock-propagation loop of
`add_attribute` (`create.py` line 41): `Compound` and
`NumericCompoundAttribute` expose children, nothing else does. -/
def Attr.pyChildren : Attr → List Attr
  | .compound _ cs => cs
  | .numericCompound a => a.children.map Attr.numeric
  | _ => []

mutual

/-- Size measure for the stack traversal. -/
def Attr.weight : Attr → ℕ
  | .compound _ cs => 1 + weightList cs
  | .numericCompound a => 1 + a.children.length
  | _ => 1

def weightList : List Attr → ℕ
  | [] => 0
  | a :: as => a.weight + weightList as

end

theorem weightList_append (l1 l2 : List Attr) :
    weightList (l1 ++ l2) = weightList l1 + weightList l2 := by
  induction l1 with
  | nil => simp [weightList]
  | cons a as ih => simp [weightList, ih, Nat.add_assoc]

theorem weightList_reverse (l : List Attr) :
    weightList l.reverse = weightList l := by
  induction l with
  | nil => rfl
  | cons a as ih =>
    simp [List.reverse_cons, weightList_append, weightList, ih,
      Nat.add_comm]

theorem weight_pos (a : Attr) : 0 < a.weight := by
  cases a <;> simp [Attr.weight]

theorem weightList_map_numeric (l : List NumericAttr) :
    weightList (l.map Attr.numeric) = l.length := by
  induction l with
  | nil => rfl
  | cons a as ih =>
    simp [weightList, Attr.weight, ih, Nat.add_comm]

theorem weightList_pyChildren_lt (a : Attr) :
    weightList a.pyChildren < a.weight := by
  cases a <;>
    simp [Attr.pyChildren, Attr.weight, weightList, weightList_map_numeric]

/-- The `while stack` lock-propagation loop of `add_attribute`
(`create.py` lines 36-41), with the stack kept in pop order (`pop()`
takes the head, `extend` prepends the reversed children).  Each visited
descriptor yields one `plug.isLocked` write; no descriptor class defines
`locked`, so `getattr(current, "locked", False)` is always `False`. -/
def lockLoop (node : String) : List Attr → List HostOp
  | [] => []
  | a :: rest =>
    .setPlugLocked node a.name false ::
      lockLoop node (a.pyChildren.reverse ++ rest)
termination_by l => weightList l
decreasing_by
  simp only [weightList, weightList_append, weightList_reverse]
  have := weightList_pyChildren_lt a
  omega

/-- `add_attribute` (`create.py` lines 23-50): raise `LockedNodeError` on
a locked node before touching the modifier, otherwise compile the
descriptor, attach it with `addAttribute` + `doIt`, run the lock loop,
fetch the plug by the descriptor name, and for the two matrix descriptor
classes write the default matrix to the plug through the modifier.
Returns the host calls made so far together with the result. -/
def add_attribute (host : Host) (node : MFnDependencyNode) (att : Attr) :
    List HostOp × Except PyError MPlug :=
  if node.isLocked then ([], .error (.lockedNode node.name))
  else
    match create_mobject host att with
    | none => ([], .error .typeError)
    | some obj =>
      let ops1 : List HostOp := [.addAttr node.name obj, .doIt]
      let ops2 := lockLoop node.name [att]
      let ops3 : List HostOp :=
        match att with
        | .doubleMatrix c d => [.newPlugValue node.name c.name d, .doIt]
        | .floatMatrix c d => [.newPlugValue node.name c.name d, .doIt]
        | _ => []
      (ops1 ++ ops2 ++ ops3, .ok ⟨node.name, att.name⟩)

/-- C6: on an unlocked node, `add_attribute` compiles the descriptor,
attaches the compiled object through the modifier (`addAttribute`, then
`doIt`), and returns the plug found on the node under the descriptor
name; for the two matrix descriptors it additionally writes the default
matrix to that plug through the modifier after attachment. -/
theorem add_attribute_spec (host : Host) (node : MFnDependencyNode)
    (att : Attr) (obj : MObjectDesc) (hn : node.isLocked = false)
    (hobj : create_mobject host att = some obj) :
    (add_attribute host node att).2 = .ok ⟨node.name, att.name⟩ ∧
    ((add_attribute host node att).1.take 2 =
      [.addAttr node.name obj, .doIt]) ∧
    (∀ c d, att = .doubleMatrix c d →
      (add_attribute host node att).1 =
        [HostOp.addAttr node.name obj, .doIt] ++
          lockLoop node.name [att] ++
          [.newPlugValue node.name c.name d, .doIt]) ∧
    (∀ c d, att = .floatMatrix c d →
      (add_attribute host node att).1 =
        [HostOp.addAttr node.name obj, .doIt] ++
          lockLoop node.name [att] ++
          [.newPlugValue node.name c.name d, .doIt]) := by
  refine ⟨?_, ?_, ?_, ?_⟩
  · simp [add_attribute, hn, hobj]
  · simp [add_attribute, hn, hobj, List.take]
  · intro c d hatt
    subst hatt
    simp [add_attribute, hn, hobj]
  · intro c d hatt
    subst hatt
    simp [add_attribute, hn, hobj]

/-- Witness node for C6/C8. -/
def wNode : MFnDependencyNode := ⟨"network1", false⟩

/-- Witness matrix descriptor for C6. -/
def wMatrixAttr : Attr := .doubleMatrix (AttrCommon.mk0 "m") MMatrix.kIdentity

/-- The compiled form of `wMatrixAttr`. -/
def wMatrixDesc : MObjectDesc :=
  .mk [.strV "m", .strV "m"] (AttrCommon.mk0 "m").mfnFlags [] [] none
    false []

/-- Witness for C6: adding a `DoubleMatrix` descriptor to an unlocked
node returns the plug `m` on `network1` and performs attach, lock loop
and the default-matrix write, in that order. -/
theorem add_attribute_spec_witness :
    wNode.isLocked = false ∧
    create_mobject host0 wMatrixAttr = some wMatrixDesc ∧
    (add_attribute host0 wNode wMatrixAttr).2 =
      .ok ⟨"network1", Attr.name wMatrixAttr⟩ ∧
    (add_attribute host0 wNode wMatrixAttr).1 =
      [HostOp.addAttr "network1" wMatrixDesc, .doIt] ++
        lockLoop "network1" [wMatrixAttr] ++
        [.newPlugValue "network1" (AttrCommon.mk0 "m").name
          MMatrix.kIdentity, .doIt] :=
  ⟨rfl, by rfl,
    (add_attribute_spec host0 wNode wMatrixAttr wMatrixDesc rfl (by rfl)).1,
    (add_attribute_spec host0 wNode wMatrixAttr wMatrixDesc rfl
      (by rfl)).2.2.1 (AttrCommon.mk0 "m") MMatrix.kIdentity rfl⟩

/-- C8: `add_attribute` raises `LockedNodeError` exactly on locked
nodes, and then it raises before any modifier or node call: the host-op
trace is empty. -/
theorem add_attribute_locked (host : Host) (node : MFnDependencyNode)
    (att : Attr) :
    ((∃ s, (add_attribute host node att).2 = .error (.lockedNode s)) ↔
      node.isLocked = true) ∧
    (node.isLocked = true →
      add_attribute host node att = ([], .error (.lockedNode node.name))) := by
  constructor
  · constructor
    · intro ⟨s, hs⟩
      by_contra hn
      simp only [Bool.not_eq_true] at hn
      simp only [add_attribute, hn, Bool.false_eq_true, if_false] at hs
      cases hc : create_mobject host att with
      | none => rw [hc] at hs; simp at hs
      | some obj => rw [hc] at hs; simp at hs
    · intro hn
      exact ⟨node.name, by simp [add_attribute, hn]⟩
  · intro hn
    simp [add_attribute, hn]

/-- Witness locked node for C8. -/
def wLockedNode : MFnDependencyNode := ⟨"network2", true⟩

/-- Witness for C8: on a locked node the call raises `LockedNodeError`
with the node name and performs no host call at all. -/
theorem add_attribute_locked_witness :
    wLockedNode.isLocked = true ∧
    add_attribute host0 wLockedNode wMatrixAttr =
      ([], .error (.lockedNode "network2")) :=
  ⟨rfl, (add_attribute_locked host0 wLockedNode wMatrixAttr).2 rfl⟩

end Attribs
